import Mathlib

/-!
Shallow embedding of the m3db-operator reconciliation core
(`pkg/controller/controller.go`): the cluster state machine
`handleClusterUpdate`, the pod-identity handler `handlePodUpdate`, and the
statefulset informer update callback.  Mutations issued against the
platform or the DB admin endpoint are traced as an explicit effect list;
collaborator functions whose sources are not part of the verified tree are
modelled from the specification and marked as such in their doc comments.
-/

namespace M3O

/-- One isolation group from the cluster spec: `(name, numInstances)`. -/
structure IsolationGroup where
  name : String
  numInstances : Int
deriving Repr, DecidableEq

/-- The observed fields of a child statefulset that the reconciler reads:
its name, its `isolation-group` label (absent when the label is missing),
`Spec.Replicas` (a nullable int32 pointer in the source, hence `Option`),
and `Status.ReadyReplicas`. -/
structure StatefulSet where
  name : String
  isolationGroupLabel : Option String
  specReplicas : Option Int
  readyReplicas : Int
deriving Repr, DecidableEq

/-- One instance of the DB placement: id, isolation group, availability. -/
structure PlacementInstance where
  id : String
  isolationGroup : String
  isAvailable : Bool
deriving Repr, DecidableEq

/-- The DB placement: its list of instances. -/
structure Placement where
  instances : List PlacementInstance
deriving Repr, DecidableEq

/-- The fields of an M3DBCluster object that the reconcile tick reads:
name, spec isolation groups, declared namespace names, replication factor,
number of shards, and whether the `PlacementInitialized` status condition
is `True` (`cluster.Status.HasInitializedPlacement()`). -/
structure Cluster where
  name : String
  isolationGroups : List IsolationGroup
  namespaces : List String
  replicationFactor : Int
  numShards : Int
  placementInitialized : Bool
deriving Repr, DecidableEq

/-- The world one reconcile tick observes: the cluster object plus the
results of the external reads the tick performs.  `ensureServicesOk` is
whether `ensureServices` succeeds (its idempotent service creations are
not traced), `children` is the result of `getChildStatefulSets` (`none` =
list error; the source lists twice and both reads hit the same cache, so
one value serves both), `liveNamespaces` is the admin namespace listing,
`podsListOk` is whether the pod list call succeeds, and `placement` is the
admin placement `Get` result (`none` = error). -/
structure World where
  cluster : Cluster
  ensureServicesOk : Bool
  children : Option (List StatefulSet)
  liveNamespaces : List String
  podsListOk : Bool
  placement : Option Placement
deriving Repr, DecidableEq

/-- Traced mutations and events of one cluster reconcile tick. -/
inductive Effect where
  | stsCreate (name : String) (isoGroup : String) (numInstances : Int)
  | stsUpdateReplicas (set : String) (newCount : Int)
  | namespaceCreate (name : String)
  | namespaceDelete (name : String)
  | placementInit
  | placementAdd (set : String)
  | placementRemove (set : String)
  | warningEvent (reason : String)
  | normalEvent (reason : String)
  | bootstrapStatusUpdate
deriving Repr, DecidableEq

/-- Outcome of a handler invocation.  `crash` embeds a Go runtime panic
(index out of range), which is distinct from an ordinary returned error. -/
inductive TickResult where
  | ok
  | err (msg : String)
  | crash (msg : String)
deriving Repr, DecidableEq

/-- Lexicographic code-point comparison of names, matching Go's string
order on the ASCII group names the operator deals with. -/
def nameLe : List Char → List Char → Bool
  | [], _ => true
  | _ :: _, [] => false
  | a :: as, b :: bs =>
    if a.toNat < b.toNat then true
    else if b.toNat < a.toNat then false
    else nameLe as bs

/-- Insert an isolation group into a name-sorted list. -/
def insertByName (g : IsolationGroup) : List IsolationGroup → List IsolationGroup
  | [] => [g]
  | h :: t => if nameLe g.name.data h.name.data then g :: h :: t else h :: insertByName g t

/-- Modelled from the spec: `sort.Sort(myspec.IsolationGroups(isoGroups))`
whose `Less` method lives in the API types file absent from the verified
tree; the spec (§4.2 step 4) sorts isolation groups by name. -/
def sortIsolationGroups : List IsolationGroup → List IsolationGroup
  | [] => []
  | h :: t => insertByName h (sortIsolationGroups t)

/-- Modelled from the spec: `IsolationGroups.GetByName`, from the API types
file absent from the verified tree; looks a group up by its name. -/
def getByName (gs : List IsolationGroup) (zone : String) : Option IsolationGroup :=
  gs.find? (fun g => g.name == zone)

/-- `instancesInIsoGroup` from the source: the placement instances whose
isolation group matches. -/
def instancesInIsoGroup (pl : Placement) (isoGroup : String) : List PlacementInstance :=
  pl.instances.filter (fun inst => inst.isolationGroup == isoGroup)

/-- The readiness-gate predicate of the source: a statefulset blocks the
tick when its `Spec.Replicas` pointer is non-nil and differs from
`Status.ReadyReplicas`.  A set with an unset replica pointer does not
block. -/
def waitingForReady (sts : StatefulSet) : Bool :=
  match sts.specReplicas with
  | some r => r != sts.readyReplicas
  | none => false

/-- Modelled from the spec: `reconcileNamespaces` (§4.5), whose source is
absent from the verified tree; it computes the symmetric difference of the
declared and live namespace name sets, creating the missing and deleting
the extra ones, one admin write each. -/
def namespaceDiffEffects (declared live : List String) : List Effect :=
  (declared.filter (fun n => !(live.contains n))).map Effect.namespaceCreate
    ++ (live.filter (fun n => !(declared.contains n))).map Effect.namespaceDelete

/-- Modelled from the spec: `validatePlacementWithStatus` (§4.2 step 9),
whose source is absent from the verified tree.  Called when the
`PlacementInitialized` condition is not `True`: it validates the spec
(replication factor equals isolation-group count, non-zero shards), then
posts the placement init request and sets the condition, reporting
`updated = true`; the caller then warns `FailedToUpdate` and returns the
re-enqueue error, per the source's `handleClusterUpdate`.  The result is
`some (outcome, effects)` when the tick returns here, `none` when the
condition was already set and the tick continues with no effect. -/
def placementInitStep (c : Cluster) : Option (TickResult × List Effect) :=
  if c.placementInitialized then none
  else if c.replicationFactor ≠ Int.ofNat c.isolationGroups.length then
    some (.err "invalid replication factor", [.warningEvent "InvalidReplicationFactor"])
  else if c.numShards ≤ 0 then
    some (.err "invalid number of shards", [.warningEvent "InvalidShards"])
  else
    some (.err "re-enqueing cluster due to API update",
      [.placementInit, .warningEvent "FailedToUpdate"])

/-- One step of the per-group scaling loop: either skip to the next set or
return from the tick with a result and effects. -/
inductive LoopStep where
  | next
  | ret (r : TickResult × List Effect)
deriving Repr, DecidableEq

/-- The body of the per-group scaling loop of `handleClusterUpdate`
(source lines 451-514): resolve the set's isolation-group label, look the
group up, require a set replica pointer, then decide among skip, placement
expand (`expandPlacementForSet` — modelled from the spec as one placement
add write), placement shrink (`shrinkPlacementForSet` — modelled from the
spec as one placement remove write), or a one-step resize of the set's
declared replicas. -/
def setScalingStep (isoGroups : List IsolationGroup) (pl : Placement)
    (set : StatefulSet) : LoopStep :=
  match set.isolationGroupLabel with
  | none => .ret (.err ("statefulset " ++ set.name ++ " has no isolation-group label"), [])
  | some zone =>
    match getByName isoGroups zone with
    | none => .ret (.err ("zone " ++ zone ++ " not found in cluster isoGroups"), [])
    | some group =>
      match set.specReplicas with
      | none => .ret (.err ("set " ++ set.name ++ " has unset spec replica"), [])
      | some current =>
        if group.numInstances = current ∧
            current = Int.ofNat (instancesInIsoGroup pl group.name).length then
          .next
        else if group.numInstances = current ∧
            Int.ofNat (instancesInIsoGroup pl group.name).length < current then
          .ret (.ok, [.placementAdd set.name])
        else if Int.ofNat (instancesInIsoGroup pl group.name).length >
            group.numInstances then
          .ret (.ok, [.placementRemove set.name])
        else
          .ret (.ok, [.stsUpdateReplicas set.name
            (if current < group.numInstances then current + 1 else current - 1)])

/-- The per-group scaling loop: process children in order, returning at
the first set whose step returns, `none` when every set is skipped. -/
def scanSets (isoGroups : List IsolationGroup) (pl : Placement) :
    List StatefulSet → Option (TickResult × List Effect)
  | [] => none
  | set :: rest =>
    match setScalingStep isoGroups pl set with
    | .next => scanSets isoGroups pl rest
    | .ret r => some r

/-- The namespace-reconciliation phase of the tick together with the
empty-namespace warning that follows it in the source: neither returns on
success, so their effects accumulate before the later phases. -/
def nsPhaseEffects (c : Cluster) (live : List String) : List Effect :=
  namespaceDiffEffects c.namespaces live
    ++ (if c.namespaces.isEmpty then
          [Effect.warningEvent "cluster has no namespaces"] else [])

/-- `handleClusterUpdate` from the source: one reconcile tick of the
cluster state machine, returning its outcome and the trace of mutations
and events it issues.  Faithful to the source's order: ensure services;
return when the spec has no isolation groups; sort groups; list children;
readiness gate; group-creation branch when the child count differs from
the group count (a Go panic when the index is out of range); namespace
reconciliation; empty-namespace warning; placement initialization;
pod listing; placement fetch; availability gate; per-group scaling loop;
bootstrap-status reconciliation and the final success event. -/
def handleClusterUpdate (w : World) : TickResult × List Effect :=
  if !w.ensureServicesOk then (.err "error ensuring services", [])
  else if w.cluster.isolationGroups.isEmpty then (.ok, [])
  else
    match w.children with
    | none => (.err "error listing statefulsets", [])
    | some childrenSets =>
      if (childrenSets.find? waitingForReady).isSome then (.ok, [])
      else if childrenSets.length ≠ (sortIsolationGroups w.cluster.isolationGroups).length then
        match (sortIsolationGroups w.cluster.isolationGroups).get? childrenSets.length with
        | none => (.crash "index out of range", [])
        | some g =>
          (.ok, [.stsCreate (w.cluster.name ++ "-" ++ toString childrenSets.length)
            g.name g.numInstances])
      else
        match placementInitStep w.cluster with
        | some (r, effs) => (r, nsPhaseEffects w.cluster w.liveNamespaces ++ effs)
        | none =>
          if !w.podsListOk then
            (.err "error listing pods", nsPhaseEffects w.cluster w.liveNamespaces)
          else
            match w.placement with
            | none =>
              (.err "error fetching active placement",
                nsPhaseEffects w.cluster w.liveNamespaces)
            | some pl =>
              if (pl.instances.filter (fun i => !i.isAvailable)).length > 0 then
                (.ok, nsPhaseEffects w.cluster w.liveNamespaces
                  ++ [.warningEvent "current unavailable instances"])
              else
                match scanSets (sortIsolationGroups w.cluster.isolationGroups) pl
                    childrenSets with
                | some (r, effs) =>
                  (r, nsPhaseEffects w.cluster w.liveNamespaces ++ effs)
                | none =>
                  (.ok, nsPhaseEffects w.cluster w.liveNamespaces
                    ++ [.bootstrapStatusUpdate,
                        .normalEvent "cluster updated and synced"])

/-- Is the effect a platform statefulset write (create or replica update)? -/
def isStsWrite : Effect → Bool
  | .stsCreate _ _ _ => true
  | .stsUpdateReplicas _ _ => true
  | _ => false

/-- Is the effect a placement admin write? -/
def isPlacementWrite : Effect → Bool
  | .placementInit => true
  | .placementAdd _ => true
  | .placementRemove _ => true
  | _ => false

/-- Is the effect a placement or namespace admin write? -/
def isAdminWrite : Effect → Bool
  | .namespaceCreate _ => true
  | .namespaceDelete _ => true
  | .placementInit => true
  | .placementAdd _ => true
  | .placementRemove _ => true
  | _ => false

/-- Count of statefulset writes in a trace. -/
def stsWrites (l : List Effect) : Nat := l.countP isStsWrite

/-- Count of placement admin writes in a trace. -/
def placementWrites (l : List Effect) : Nat := l.countP isPlacementWrite

/-- Count of placement or namespace admin writes in a trace. -/
def adminWrites (l : List Effect) : Nat := l.countP isAdminWrite

/-- The fields of a pod that `handlePodUpdate` reads: its name, the
cluster-membership label (`pod.Labels[labels.Cluster]`), and the stored
pod-identity annotation value when present. -/
structure Pod where
  name : String
  clusterLabel : Option String
  identityAnnot : Option String
deriving Repr, DecidableEq

/-- The results of the external calls `handlePodUpdate` makes: the parent
cluster lookup through the lister (the cluster's content is not otherwise
used by the handler), the composed identity computation
(`podIDProvider.Identity` followed by `podidentity.IdentityJSON`, either
of which can fail, producing the canonical serialized identity on
success), and whether the pod update API call succeeds. -/
structure PodEnv where
  parentCluster : Except String Unit
  identity : Except String String
  updateOk : Bool
deriving Repr

/-- Traced calls and mutations of one pod-handler invocation. -/
inductive PodEffect where
  | parentLookup
  | identityCompute
  | warnIDMismatch
  | podUpdate (idStr : String)
deriving Repr, DecidableEq

/-- `handlePodUpdate` from the source: drop pods without the cluster
label; resolve the parent cluster; compute and serialize the identity;
when the pod already carries the identity annotation compare and warn on
mismatch but return without updating; otherwise write the annotation via
a pod update. -/
def handlePodUpdate (env : PodEnv) (pod : Pod) : TickResult × List PodEffect :=
  match pod.clusterLabel with
  | none => (.ok, [])
  | some _ =>
    match env.parentCluster with
    | .error e => (.err e, [.parentLookup])
    | .ok _ =>
      match env.identity with
      | .error e => (.err e, [.parentLookup, .identityCompute])
      | .ok idStr =>
        match pod.identityAnnot with
        | some currentID =>
          if currentID ≠ idStr then
            (.ok, [.parentLookup, .identityCompute, .warnIDMismatch])
          else
            (.ok, [.parentLookup, .identityCompute])
        | none =>
          if env.updateOk then
            (.ok, [.parentLookup, .identityCompute, .podUpdate idStr])
          else
            (.err "error updating pod", [.parentLookup, .identityCompute, .podUpdate idStr])

/-- The metadata of a statefulset object the informer callbacks read: its
name, resource version, and controller-owner reference (owner kind and
owner name) when one exists. -/
structure StsMeta where
  name : String
  resourceVersion : String
  controllerRef : Option (String × String)
deriving Repr, DecidableEq

/-- `handleStatefulSetUpdate` from the source (the informer add/delete
handler, also the processing path of updates): resolve the controller
owner; ignore objects without one or whose owner kind is not
`m3dbcluster`; look the owning cluster up through the lister, ignoring
orphans; enqueue the found cluster's key.  `lookup` maps an owner name to
the cluster key the lister + `enqueueCluster` would produce, `none` when
the lookup errors; the result is the list of enqueued cluster keys. -/
def handleStatefulSetUpdate (lookup : String → Option String)
    (obj : StsMeta) : List String :=
  match obj.controllerRef with
  | none => []
  | some (kind, ownerName) =>
    if kind ≠ "m3dbcluster" then []
    else
      match lookup ownerName with
      | none => []
      | some key => [key]

/-- The anonymous `UpdateFunc` registered on the statefulset informer in
`New`: when the new object's resource version equals the old one's the
event is a periodic resync and is skipped; otherwise the new object is
processed through `handleStatefulSetUpdate` exactly like an add. -/
def statefulSetUpdateFunc (lookup : String → Option String)
    (oldSts newSts : StsMeta) : List String :=
  if newSts.resourceVersion = oldSts.resourceVersion then []
  else handleStatefulSetUpdate lookup newSts

/-- A world on which one tick issues two admin writes: the cluster's one
group is complete and ready, one declared namespace is missing from the
live list, and the placement is not yet initialized; the tick creates the
namespace and then posts the placement init. -/
def twoAdminWritesWorld : World :=
  { cluster := { name := "m", isolationGroups := [⟨"a", 1⟩], namespaces := ["ns1"],
                 replicationFactor := 1, numShards := 256, placementInitialized := false }
    ensureServicesOk := true
    children := some [⟨"m-0", some "a", some 1, 1⟩]
    liveNamespaces := []
    podsListOk := true
    placement := some ⟨[]⟩ }

/-- A reachable world with more children than isolation groups (the user
shrank the spec's group list from two entries to one while two ready
children exist): the creation branch is taken and indexes the sorted
group list at 2, past its length 1. -/
def moreChildrenWorld : World :=
  { cluster := { name := "m", isolationGroups := [⟨"a", 1⟩], namespaces := [],
                 replicationFactor := 1, numShards := 1, placementInitialized := true }
    ensureServicesOk := true
    children := some [⟨"m-0", some "a", some 1, 1⟩, ⟨"m-1", some "a", some 1, 1⟩]
    liveNamespaces := []
    podsListOk := true
    placement := some ⟨[]⟩ }

/-- A world whose cluster spec declares no isolation groups. -/
def emptyGroupsWorld : World :=
  { cluster := { name := "m", isolationGroups := [], namespaces := [],
                 replicationFactor := 0, numShards := 0, placementInitialized := false }
    ensureServicesOk := true
    children := some []
    liveNamespaces := []
    podsListOk := true
    placement := none }

/-- A world with one child statefulset that declares 1 replica but has 0
ready. -/
def unreadyWorld : World :=
  { cluster := { name := "m", isolationGroups := [⟨"a", 1⟩], namespaces := [],
                 replicationFactor := 1, numShards := 1, placementInitialized := false }
    ensureServicesOk := true
    children := some [⟨"m-0", some "a", some 1, 0⟩]
    liveNamespaces := []
    podsListOk := true
    placement := none }

/-- A world with two isolation groups (listed unsorted) and one ready
child: the next tick must create the group of index 1 in sorted order. -/
def creationWorld : World :=
  { cluster := { name := "m", isolationGroups := [⟨"b", 1⟩, ⟨"a", 1⟩], namespaces := [],
                 replicationFactor := 2, numShards := 1, placementInitialized := false }
    ensureServicesOk := true
    children := some [⟨"m-0", some "a", some 1, 1⟩]
    liveNamespaces := []
    podsListOk := true
    placement := none }

/-- A world whose one child statefulset has a nil `Spec.Replicas` pointer
while every other gate of the tick passes. -/
def unsetReplicasWorld : World :=
  { cluster := { name := "m", isolationGroups := [⟨"a", 1⟩], namespaces := ["n"],
                 replicationFactor := 1, numShards := 1, placementInitialized := true }
    ensureServicesOk := true
    children := some [⟨"m-0", some "a", none, 0⟩]
    liveNamespaces := ["n"]
    podsListOk := true
    placement := some ⟨[⟨"i0", "a", true⟩]⟩ }

/-! Helper lemmas shared by the theorems below. -/

/-- Every effect of the namespace phase is a namespace write or the
empty-namespace warning. -/
theorem mem_nsPhase (c : Cluster) (live : List String) (e : Effect)
    (he : e ∈ nsPhaseEffects c live) :
    (∃ n, e = .namespaceCreate n) ∨ (∃ n, e = .namespaceDelete n) ∨
      e = .warningEvent "cluster has no namespaces" := by
  simp only [nsPhaseEffects, namespaceDiffEffects, List.append_assoc, List.mem_append] at he
  rcases he with he | he | he
  · obtain ⟨n, -, rfl⟩ := List.mem_map.mp he
    exact Or.inl ⟨n, rfl⟩
  · obtain ⟨n, -, rfl⟩ := List.mem_map.mp he
    exact Or.inr (Or.inl ⟨n, rfl⟩)
  · split at he
    · simp only [List.mem_singleton] at he
      exact Or.inr (Or.inr he)
    · simp at he

/-- The namespace phase issues no statefulset and no placement writes. -/
theorem nsPhase_no_writes (c : Cluster) (live : List String) :
    stsWrites (nsPhaseEffects c live) = 0 ∧ placementWrites (nsPhaseEffects c live) = 0 := by
  constructor
  · rw [stsWrites, List.countP_eq_zero]
    intro e he
    rcases mem_nsPhase c live e he with ⟨n, rfl⟩ | ⟨n, rfl⟩ | rfl <;> simp [isStsWrite]
  · rw [placementWrites, List.countP_eq_zero]
    intro e he
    rcases mem_nsPhase c live e he with ⟨n, rfl⟩ | ⟨n, rfl⟩ | rfl <;> simp [isPlacementWrite]

/-- A returning step of the scaling loop carries at most one statefulset
write and at most one placement write. -/
theorem setScalingStep_writes (isoGroups : List IsolationGroup) (pl : Placement)
    (set : StatefulSet) (p : TickResult × List Effect)
    (h : setScalingStep isoGroups pl set = .ret p) :
    stsWrites p.2 ≤ 1 ∧ placementWrites p.2 ≤ 1 := by
  unfold setScalingStep at h
  repeat' split at h
  all_goals first
    | (injection h with h; subst h;
       simp [stsWrites, placementWrites, List.countP_cons, isStsWrite, isPlacementWrite])
    | injection h

/-- A returning scaling loop carries at most one statefulset write and at
most one placement write. -/
theorem scanSets_writes (isoGroups : List IsolationGroup) (pl : Placement) :
    ∀ (sets : List StatefulSet) (r : TickResult) (effs : List Effect),
      scanSets isoGroups pl sets = some (r, effs) →
      stsWrites effs ≤ 1 ∧ placementWrites effs ≤ 1
  | [], r, effs => by simp [scanSets]
  | set :: rest, r, effs => by
    simp only [scanSets]
    cases hstep : setScalingStep isoGroups pl set with
    | next => exact fun h => scanSets_writes isoGroups pl rest r effs h
    | ret q =>
      intro h
      injection h with h
      have hq := setScalingStep_writes isoGroups pl set q hstep
      rw [h] at hq
      exact hq

/-- A returning placement-initialization phase carries no statefulset
write and at most one placement write. -/
theorem placementInitStep_writes (c : Cluster) (r : TickResult) (effs : List Effect)
    (h : placementInitStep c = some (r, effs)) :
    stsWrites effs = 0 ∧ placementWrites effs ≤ 1 := by
  unfold placementInitStep at h
  repeat' split at h
  all_goals first
    | (injection h with h; injection h with h1 h2; subst h2; decide)
    | injection h

/-! Claim theorems. -/

/-- C1: for each child statefulset the per-group scaling decision reaches,
with `desired` the matching isolation group's instance count, `current`
the set's declared replicas, and `inPlacement` the number of placement
instances in that group: when `desired = current` and
`current = inPlacement` the set is skipped (the scan continues with the
remaining sets); when `desired = current` and `inPlacement < current` the
tick issues a placement expansion for the set and returns; when
`inPlacement > desired` the tick issues a placement shrink and returns;
otherwise the tick sets the group's declared replicas to `current + 1`
when `current < desired` and to `current - 1` otherwise, and returns. -/
theorem scaling_decision_cases
    (isoGroups : List IsolationGroup) (pl : Placement)
    (set : StatefulSet) (rest : List StatefulSet)
    (zone : String) (group : IsolationGroup) (current : Int)
    (hz : set.isolationGroupLabel = some zone)
    (hg : getByName isoGroups zone = some group)
    (hr : set.specReplicas = some current) :
    (group.numInstances = current ∧
        current = Int.ofNat (instancesInIsoGroup pl group.name).length →
      scanSets isoGroups pl (set :: rest) = scanSets isoGroups pl rest)
  ∧ (group.numInstances = current ∧
        Int.ofNat (instancesInIsoGroup pl group.name).length < current →
      scanSets isoGroups pl (set :: rest) = some (.ok, [.placementAdd set.name]))
  ∧ (Int.ofNat (instancesInIsoGroup pl group.name).length > group.numInstances →
      scanSets isoGroups pl (set :: rest) = some (.ok, [.placementRemove set.name]))
  ∧ (¬(group.numInstances = current ∧
        current = Int.ofNat (instancesInIsoGroup pl group.name).length) →
     ¬(group.numInstances = current ∧
        Int.ofNat (instancesInIsoGroup pl group.name).length < current) →
     ¬(Int.ofNat (instancesInIsoGroup pl group.name).length > group.numInstances) →
      scanSets isoGroups pl (set :: rest) =
        some (.ok, [.stsUpdateReplicas set.name
          (if current < group.numInstances then current + 1 else current - 1)])) := by
  refine ⟨?_, ?_, ?_, ?_⟩
  · intro h
    have hs : setScalingStep isoGroups pl set = .next := by
      simp only [setScalingStep, hz, hg, hr]
      rw [if_pos h]
    simp [scanSets, hs]
  · intro h
    have hs : setScalingStep isoGroups pl set = .ret (.ok, [.placementAdd set.name]) := by
      simp only [setScalingStep, hz, hg, hr]
      rw [if_neg (by omega), if_pos h]
    simp [scanSets, hs]
  · intro h
    have hs : setScalingStep isoGroups pl set = .ret (.ok, [.placementRemove set.name]) := by
      simp only [setScalingStep, hz, hg, hr]
      rw [if_neg (by omega), if_neg (by omega), if_pos h]
    simp [scanSets, hs]
  · intro h1 h2 h3
    have hs : setScalingStep isoGroups pl set = .ret (.ok, [.stsUpdateReplicas set.name
        (if current < group.numInstances then current + 1 else current - 1)]) := by
      simp only [setScalingStep, hz, hg, hr]
      rw [if_neg h1, if_neg h2, if_neg h3]
    simp [scanSets, hs]

/-- Witness for C1: a set declaring 1 replica in a group wanting 3, with
an empty placement, is resized one step toward desired, to 2. -/
theorem scaling_decision_cases_witness :
    scanSets [⟨"a", 3⟩] ⟨[]⟩ [⟨"m-0", some "a", some 1, 1⟩] =
      some (.ok, [.stsUpdateReplicas "m-0" 2]) := by
  have h := (scaling_decision_cases [⟨"a", 3⟩] ⟨[]⟩ ⟨"m-0", some "a", some 1, 1⟩ []
    "a" ⟨"a", 3⟩ 1 rfl rfl rfl).2.2.2 (by decide) (by decide) (by decide)
  simpa using h

/-- C2 (amended): every reconcile tick issues at most one statefulset
write (group create or replica update) and at most one placement admin
write; the original claim's bound of one combined placement-or-namespace
admin write per tick fails, see the counterexample. -/
theorem one_mutation_per_tick (w : World) :
    stsWrites (handleClusterUpdate w).2 ≤ 1 ∧
    placementWrites (handleClusterUpdate w).2 ≤ 1 := by
  unfold handleClusterUpdate
  repeat' split
  all_goals try decide
  all_goals (try (simp [stsWrites, placementWrites, List.countP_cons, List.countP_append,
    isStsWrite, isPlacementWrite]))
  all_goals first
    | (rename_i heq
       have hns := nsPhase_no_writes w.cluster w.liveNamespaces
       have hps := placementInitStep_writes _ _ _ heq
       simp only [stsWrites, placementWrites] at hns hps
       omega)
    | (rename_i heq
       have hns := nsPhase_no_writes w.cluster w.liveNamespaces
       have hps := scanSets_writes _ _ _ _ _ heq
       simp only [stsWrites, placementWrites] at hns hps
       omega)
    | (have hns := nsPhase_no_writes w.cluster w.liveNamespaces
       simp only [stsWrites, placementWrites] at hns
       omega)

/-- Counterexample to C2 as stated: on `twoAdminWritesWorld` a single
reconcile tick issues two placement-or-namespace admin writes (a
namespace create followed by the placement init), not at most one. -/
theorem two_admin_writes_per_tick :
    adminWrites (handleClusterUpdate twoAdminWritesWorld).2 = 2 := by decide

/-- C3: when any child statefulset has a set declared replica count that
differs from its ready replica count, the reconcile tick returns
successfully and issues no mutation at all: no group create, no replica
update, no placement or namespace write, no event. -/
theorem readiness_gate (w : World) (cs : List StatefulSet) (sts : StatefulSet) (r : Int)
    (hsvc : w.ensureServicesOk = true)
    (hch : w.children = some cs)
    (hmem : sts ∈ cs) (hrep : sts.specReplicas = some r) (hne : r ≠ sts.readyReplicas) :
    handleClusterUpdate w = (.ok, []) := by
  have hw : waitingForReady sts = true := by
    simp [waitingForReady, hrep, bne_iff_ne]
    exact hne
  have hfind : (cs.find? waitingForReady).isSome = true := by
    rw [List.find?_isSome]
    exact ⟨sts, hmem, hw⟩
  unfold handleClusterUpdate
  rw [hsvc, hch]
  by_cases hemp : w.cluster.isolationGroups.isEmpty
  · simp [hemp]
  · simp [hemp, hfind]

/-- Witness for C3: on `unreadyWorld` (declared 1, ready 0) the tick
returns success with no effects. -/
theorem readiness_gate_witness :
    handleClusterUpdate unreadyWorld = (.ok, []) :=
  readiness_gate unreadyWorld [⟨"m-0", some "a", some 1, 0⟩] ⟨"m-0", some "a", some 1, 0⟩ 1
    rfl rfl (by decide) rfl (by decide)

/-- C4: when the k existing children are all ready and k is a valid index
of the name-sorted isolation-group list (in particular `k < n`), the tick
creates exactly one statefulset named `<cluster>-<k>` from the k-th sorted
entry's name and instance count, and returns; the statement is quantified
over every such k, which is what repeated ticks at k, k+1, ... observe
until `k = n`. -/
theorem monotonic_group_creation (w : World) (cs : List StatefulSet) (g : IsolationGroup)
    (hsvc : w.ensureServicesOk = true)
    (hch : w.children = some cs)
    (hready : ∀ sts ∈ cs, waitingForReady sts = false)
    (hg : (sortIsolationGroups w.cluster.isolationGroups).get? cs.length = some g) :
    handleClusterUpdate w =
      (.ok, [.stsCreate (w.cluster.name ++ "-" ++ toString cs.length)
        g.name g.numInstances]) := by
  have hlt : cs.length < (sortIsolationGroups w.cluster.isolationGroups).length := by
    by_contra hcon
    rw [not_lt] at hcon
    rw [List.get?_eq_none.mpr hcon] at hg
    exact Option.noConfusion hg
  have hemp : w.cluster.isolationGroups.isEmpty = false := by
    by_contra hcon
    rw [Bool.not_eq_false] at hcon
    rw [List.isEmpty_iff.mp hcon] at hg
    simp [sortIsolationGroups] at hg
  have hfind : cs.find? waitingForReady = none :=
    List.find?_eq_none.mpr (fun x hx => by simp [hready x hx])
  unfold handleClusterUpdate
  rw [hsvc, hch]
  simp only [hemp, hfind, Bool.not_true, Option.isSome_none]
  rw [if_neg (by simp), if_neg (by simp), if_pos (Nat.ne_of_lt hlt), hg]
  simp

/-- Witness for C4: on `creationWorld` (sorted groups `[a, b]`, one ready
child) the tick creates exactly the statefulset `m-1` for group `b`. -/
theorem monotonic_group_creation_witness :
    handleClusterUpdate creationWorld = (.ok, [.stsCreate "m-1" "b" 1]) := by
  have h := monotonic_group_creation creationWorld [⟨"m-0", some "a", some 1, 1⟩] ⟨"b", 1⟩
    rfl rfl (by decide) (by decide)
  exact h

/-- C5: evaluation of the embedded tick at `moreChildrenWorld`, a
reachable state in which the child count (2) differs from the
isolation-group count (1) with both non-zero: the creation branch is
taken, the index it uses (the children count) is out of the sorted list's
bounds, and the source's unchecked `isoGroups[nextID]` access panics.
This refutes the claimed in-bounds safety property on the code as
written. -/
theorem creation_index_out_of_bounds :
    handleClusterUpdate moreChildrenWorld = (.crash "index out of range", []) := by decide

/-- Counterexample to C6 as stated: on `emptyGroupsWorld` (no isolation
groups) the tick returns plain success with an empty effect trace — in
particular no `IsolationGroupsMissing` warning event and no typed error
is surfaced, though `ErrIsolationGroupsMissing` is declared in the
source. -/
theorem empty_isolation_groups_silent :
    handleClusterUpdate emptyGroupsWorld = (.ok, []) := by decide

/-- C6 (amended): when a cluster spec has no isolation groups and the
services phase succeeds, the tick returns successfully with no effects at
all: no group or placement write, and also no event of any kind (the
declared typed error `ErrIsolationGroupsMissing` is never surfaced). -/
theorem empty_isolation_groups_amended (w : World)
    (hsvc : w.ensureServicesOk = true)
    (hemp : w.cluster.isolationGroups = []) :
    handleClusterUpdate w = (.ok, []) := by
  unfold handleClusterUpdate
  rw [hsvc]
  simp [hemp]

/-- Witness for the amended C6, at the concrete `emptyGroupsWorld`. -/
theorem empty_isolation_groups_amended_witness :
    handleClusterUpdate emptyGroupsWorld = (.ok, []) :=
  empty_isolation_groups_amended emptyGroupsWorld rfl rfl

/-- C7: a pod that already carries the pod-identity annotation is never
updated by the pod handler — no pod-update call appears in the trace for
any computed identity — and when the lookup and identity computation
succeed the handler returns success: on mismatch it only warns, on match
it performs the two reads and nothing else. -/
theorem sticky_identity (env : PodEnv) (pod : Pod) (cur : String)
    (h : pod.identityAnnot = some cur) :
    (∀ s, PodEffect.podUpdate s ∉ (handlePodUpdate env pod).2)
  ∧ (∀ lbl idStr, pod.clusterLabel = some lbl → env.parentCluster = .ok () →
      env.identity = .ok idStr →
      (handlePodUpdate env pod).1 = .ok
      ∧ (cur ≠ idStr → PodEffect.warnIDMismatch ∈ (handlePodUpdate env pod).2)
      ∧ (cur = idStr →
          (handlePodUpdate env pod).2 = [.parentLookup, .identityCompute])) := by
  constructor
  · intro s
    unfold handlePodUpdate
    cases hcl : pod.clusterLabel with
    | none => simp
    | some lbl =>
      cases env.parentCluster with
      | error e => simp
      | ok u =>
        cases env.identity with
        | error e => simp
        | ok idStr =>
          rw [h]
          by_cases hc : cur ≠ idStr
          · simp [hc]
          · simp [hc]
  · intro lbl idStr hcl hpc hid
    unfold handlePodUpdate
    rw [hcl, hpc, hid, h]
    dsimp only
    by_cases hc : cur ≠ idStr
    · rw [if_pos hc]
      exact ⟨rfl, fun _ => by simp, fun hceq => absurd hceq hc⟩
    · rw [if_neg hc]
      exact ⟨rfl, fun hcc => absurd hcc hc, fun _ => rfl⟩

/-- Witness for C7: a pod annotated `id-old` while the provider computes
`id-new` is not updated; the handler returns success and only warns. -/
theorem sticky_identity_witness :
    (∀ s, PodEffect.podUpdate s ∉
      (handlePodUpdate ⟨.ok (), .ok "id-new", true⟩ ⟨"p0", some "m", some "id-old"⟩).2)
  ∧ (handlePodUpdate ⟨.ok (), .ok "id-new", true⟩ ⟨"p0", some "m", some "id-old"⟩).1 = .ok
  ∧ PodEffect.warnIDMismatch ∈
      (handlePodUpdate ⟨.ok (), .ok "id-new", true⟩ ⟨"p0", some "m", some "id-old"⟩).2 := by
  have h := sticky_identity ⟨.ok (), .ok "id-new", true⟩ ⟨"p0", some "m", some "id-old"⟩
    "id-old" rfl
  have h2 := h.2 "m" "id-new" rfl rfl rfl
  exact ⟨h.1, h2.1, h2.2.1 (by decide)⟩

/-- C8: a pod that lacks the cluster-membership label makes the pod
handler return success immediately with an empty trace: no parent-cluster
lookup, no identity computation, no pod update. -/
theorem orphan_pod_dropped (env : PodEnv) (pod : Pod)
    (h : pod.clusterLabel = none) :
    handlePodUpdate env pod = (.ok, []) := by
  unfold handlePodUpdate
  rw [h]

/-- Witness for C8 at a concrete unlabeled pod. -/
theorem orphan_pod_dropped_witness :
    handlePodUpdate ⟨.ok (), .ok "id", true⟩ ⟨"p0", none, none⟩ = (.ok, []) :=
  orphan_pod_dropped ⟨.ok (), .ok "id", true⟩ ⟨"p0", none, none⟩ rfl

/-- C9: the readiness gate never blocks on a child with an unset (nil)
declared replica pointer, and when the tick reaches the per-group scaling
phase with such a set first in line it returns the error stating the set
has an unset spec replica, having issued no statefulset resize and no
placement write. -/
theorem unset_replicas_error (w : World) (set : StatefulSet) (rest : List StatefulSet)
    (pl : Placement) (zone : String) (group : IsolationGroup)
    (hsvc : w.ensureServicesOk = true)
    (hch : w.children = some (set :: rest))
    (hlen : (set :: rest).length = (sortIsolationGroups w.cluster.isolationGroups).length)
    (hready : ∀ s ∈ set :: rest, waitingForReady s = false)
    (hinit : w.cluster.placementInitialized = true)
    (hpods : w.podsListOk = true)
    (hpl : w.placement = some pl)
    (havail : ∀ inst ∈ pl.instances, inst.isAvailable = true)
    (hz : set.isolationGroupLabel = some zone)
    (hg : getByName (sortIsolationGroups w.cluster.isolationGroups) zone = some group)
    (hrep : set.specReplicas = none) :
    (∀ s : StatefulSet, s.specReplicas = none → waitingForReady s = false)
  ∧ (handleClusterUpdate w).1 = .err ("set " ++ set.name ++ " has unset spec replica")
  ∧ stsWrites (handleClusterUpdate w).2 = 0
  ∧ placementWrites (handleClusterUpdate w).2 = 0 := by
  have hgate : ∀ s : StatefulSet, s.specReplicas = none → waitingForReady s = false := by
    intro s hs
    simp [waitingForReady, hs]
  have hemp : w.cluster.isolationGroups.isEmpty = false := by
    by_contra hcon
    rw [Bool.not_eq_false] at hcon
    rw [List.isEmpty_iff.mp hcon] at hlen
    simp [sortIsolationGroups] at hlen
  have hfind : (set :: rest).find? waitingForReady = none :=
    List.find?_eq_none.mpr (fun x hx => by simp [hready x hx])
  have hpi : placementInitStep w.cluster = none := by
    simp [placementInitStep, hinit]
  have hfilter : pl.instances.filter (fun i => !i.isAvailable) = [] :=
    List.filter_eq_nil_iff.mpr (fun a ha => by simp [havail a ha])
  have hscan : scanSets (sortIsolationGroups w.cluster.isolationGroups) pl (set :: rest) =
      some (.err ("set " ++ set.name ++ " has unset spec replica"), []) := by
    simp only [scanSets, setScalingStep, hz, hg, hrep]
  have htick : handleClusterUpdate w =
      (.err ("set " ++ set.name ++ " has unset spec replica"),
        nsPhaseEffects w.cluster w.liveNamespaces ++ []) := by
    unfold handleClusterUpdate
    rw [hsvc, hch]
    simp only [hemp, Bool.not_true, Bool.false_eq_true, if_false, hfind, Option.isSome_none]
    rw [if_neg (not_ne_iff.mpr hlen), hpi, hpods]
    simp only [Bool.not_true, Bool.false_eq_true, if_false]
    rw [hpl]
    simp only [hfilter, List.length_nil, gt_iff_lt, Nat.lt_irrefl, if_false]
    rw [hscan]
  have hns := nsPhase_no_writes w.cluster w.liveNamespaces
  refine ⟨hgate, ?_, ?_, ?_⟩
  · rw [htick]
  · rw [htick]
    simpa [stsWrites, List.countP_append] using hns.1
  · rw [htick]
    simpa [placementWrites, List.countP_append] using hns.2

/-- Witness for C9 at `unsetReplicasWorld`: the tick errors on the unset
replica pointer and issues no statefulset or placement write. -/
theorem unset_replicas_error_witness :
    (handleClusterUpdate unsetReplicasWorld).1 = .err "set m-0 has unset spec replica"
  ∧ stsWrites (handleClusterUpdate unsetReplicasWorld).2 = 0
  ∧ placementWrites (handleClusterUpdate unsetReplicasWorld).2 = 0 := by
  have h := unset_replicas_error unsetReplicasWorld ⟨"m-0", some "a", none, 0⟩ []
    ⟨[⟨"i0", "a", true⟩]⟩ "a" ⟨"a", 1⟩ rfl rfl (by decide) (by decide) rfl rfl rfl
    (by decide) rfl (by decide) rfl
  exact ⟨h.2.1, h.2.2.1, h.2.2.2⟩

/-- C10: a statefulset update event whose old and new objects carry the
same resource version enqueues nothing (periodic resync suppression);
when the versions differ the event is processed exactly like an add,
through the controller-owner resolution of `handleStatefulSetUpdate`. -/
theorem resync_suppression (lookup : String → Option String) (oldSts newSts : StsMeta) :
    (newSts.resourceVersion = oldSts.resourceVersion →
      statefulSetUpdateFunc lookup oldSts newSts = [])
  ∧ (newSts.resourceVersion ≠ oldSts.resourceVersion →
      statefulSetUpdateFunc lookup oldSts newSts = handleStatefulSetUpdate lookup newSts) := by
  constructor
  · intro h
    simp [statefulSetUpdateFunc, h]
  · intro h
    simp [statefulSetUpdateFunc, h]

/-- Witness for C10: same resource version enqueues nothing; a changed
version resolves the owner and enqueues the cluster key. -/
theorem resync_suppression_witness :
    statefulSetUpdateFunc (fun n => some ("ns/" ++ n))
      ⟨"s", "1", some ("m3dbcluster", "c")⟩ ⟨"s", "1", some ("m3dbcluster", "c")⟩ = []
  ∧ statefulSetUpdateFunc (fun n => some ("ns/" ++ n))
      ⟨"s", "1", some ("m3dbcluster", "c")⟩ ⟨"s", "2", some ("m3dbcluster", "c")⟩ = ["ns/c"] := by
  constructor
  · exact (resync_suppression (fun n => some ("ns/" ++ n))
      ⟨"s", "1", some ("m3dbcluster", "c")⟩ ⟨"s", "1", some ("m3dbcluster", "c")⟩).1 rfl
  · rw [(resync_suppression (fun n => some ("ns/" ++ n))
      ⟨"s", "1", some ("m3dbcluster", "c")⟩ ⟨"s", "2", some ("m3dbcluster", "c")⟩).2 (by decide)]
    rfl

end M3O
